import Mathlib

/-!
Shallow embedding of the EduFlow dashboard (pages/1_login.py,
pages/2_instructor.py, pages/3_student.py).

The three Streamlit page scripts share one persisted credential record
(TOKEN_FILE) and the in-memory st.session_state.  Remote Google Classroom
calls are modelled by passing their outcome (or a small model of the remote
store) explicitly; everything else is translated directly from the source.
-/

/-- The pickled credential bundle stored at TOKEN_FILE.  `valid` mirrors the
externally determined `creds.valid` flag; `data` stands for the opaque token
contents (access/refresh token, expiry, scopes). -/
structure Cred where
  data : String
  valid : Bool
deriving DecidableEq, Repr

/-- The st.session_state keys used by the three pages: `user_role` is set on
the login page role selector, `current_course` and `show_create_course` by
the dashboards. -/
structure Session where
  user_role : Option String
  current_course : Option String
  show_create_course : Bool
deriving DecidableEq, Repr

/-- The session right after st.session_state.clear or at first connection. -/
def Session.empty : Session :=
  { user_role := none, current_course := none, show_create_course := false }

/-- The three page scripts of the multipage app. -/
inductive Page
  | login
  | instructor
  | student
deriving DecidableEq, Repr

/-- State shared across renders: the persisted TOKEN_FILE record (none when
the file does not exist), the session, and the currently active page. -/
structure AppState where
  tokenFile : Option Cred
  session : Session
  page : Page
deriving DecidableEq, Repr

/-- pages/1_login.py is_authenticated (lines 30-35): the token file exists and
the pickled credentials are valid. -/
def is_authenticated (tokenFile : Option Cred) : Bool :=
  match tokenFile with
  | some c => c.valid
  | none => false

/-- pages/1_login.py detect_user_role (lines 55-61): list the courses with
teacherId set to me; a non-empty result gives the string teacher, otherwise
student; any exception during the query also gives student.  `query` is the
outcome of the remote call (the list of course ids the identity teaches). -/
def detect_user_role (query : Except String (List String)) : String :=
  match query with
  | .ok courses => if courses.isEmpty then "student" else "teacher"
  | .error _ => "student"

/-- What one render of a page shows to the user. -/
inductive View
  | loginUnauthenticated
  | roleSelector
  | loginAuthenticated
  | instructorView
  | studentView
  | errorStop
deriving DecidableEq, Repr

/-- The branch structure of pages/1_login.py main: unauthenticated visitors see
the auth-code prompt; authenticated ones without a role see the blocking role
selector (the code calls st.stop there); with a role set, the welcome page
with the dashboard and sign-out buttons.  A pure render: no state change. -/
def login_render (s : AppState) : View :=
  if is_authenticated s.tokenFile then
    match s.session.user_role with
    | none => .roleSelector
    | some _ => .loginAuthenticated
  else .loginUnauthenticated

/-- The entry check shared by pages/2_instructor.py main (lines 199-219) and
pages/3_student.py main (lines 167-187): a missing token file shows an error
and stops; invalid credentials show an error, remove the token file and stop.
The session is not modified on either failure path.  `v` is the view the rest
of the page renders when the check passes. -/
def dashboard_entry (s : AppState) (v : View) : AppState × View :=
  match s.tokenFile with
  | none => (s, .errorStop)
  | some c =>
    if c.valid then (s, v)
    else ({ s with tokenFile := none }, .errorStop)

/-- One top-to-bottom run of the active page script. -/
def runPage (s : AppState) : AppState × View :=
  match s.page with
  | .login => (s, login_render s)
  | .instructor => dashboard_entry s .instructorView
  | .student => dashboard_entry s .studentView

/-- The user interactions the three pages react to.  `submitCode` carries the
outcome of fetch_token on the pasted authorization code; `openPage` is direct
page navigation (the multipage sidebar lists every script under pages/, and
each script also runs standalone through its main guard). -/
inductive Event
  | submitCode (exchange : Except String Cred)
  | chooseStudent
  | chooseInstructor
  | goDashboard
  | signOut
  | openPage (p : Page)
deriving Repr

/-- One user interaction followed by the rerun of the active page: the event
is only available when the current render shows the widget that fires it;
the handler mutates the state as the source does, then the page reruns.
Returns none when the event has no handler in the current render. -/
def step (s : AppState) (e : Event) : Option AppState :=
  let v := (runPage s).2
  let s0 := (runPage s).1
  match e with
  | .openPage p => some (runPage { s0 with page := p }).1
  | .submitCode r =>
    if v = .loginUnauthenticated then
      match r with
      | .ok c => some (runPage { s0 with tokenFile := some c }).1
      | .error _ => some s0
    else none
  | .chooseStudent =>
    if v = .roleSelector then
      some (runPage { s0 with session := { s0.session with user_role := some "student" } }).1
    else none
  | .chooseInstructor =>
    if v = .roleSelector then
      some (runPage { s0 with session := { s0.session with user_role := some "instructor" } }).1
    else none
  | .goDashboard =>
    if v = .loginAuthenticated then
      match s0.session.user_role with
      | some r =>
        some (runPage { s0 with page := if r = "instructor" then .instructor else .student }).1
      | none => none
    else none
  | .signOut =>
    if v = .loginAuthenticated ∨ v = .instructorView ∨ v = .studentView then
      some (runPage { s0 with tokenFile := none, session := Session.empty }).1
    else none

/-- The states an execution can be in, starting from a fresh connection with
no token file on disk. -/
inductive Reachable : AppState → Prop
  | base : Reachable { tokenFile := none, session := Session.empty, page := .login }
  | next {s s' : AppState} (e : Event) : Reachable s → step s e = some s' → Reachable s'

/-- pages/3_student.py submission status (assignment_card lines 149-151 and
main lines 331-342): Submitted when the fetched submission state equals
TURNED_IN, else Late when now is past the due timestamp, else Pending.
Timestamps are modelled as integers. -/
inductive SubmissionStatus
  | submitted
  | late
  | pending
deriving DecidableEq, Repr

/-- The status expression itself: state is the submission dict entry for the
state key (none when absent), compared against TURNED_IN; the time comparison
is datetime.now() against the due timestamp. -/
def submission_status (state : Option String) (due now : Int) : SubmissionStatus :=
  if state = some "TURNED_IN" then .submitted
  else if now > due then .late
  else .pending

/-- The result dict of pages/2_instructor.py enroll_student: exactly one of
the keys success, warning, error is present. -/
inductive EnrollResult
  | success (msg : String)
  | warning (msg : String)
  | error (msg : String)
deriving DecidableEq, Repr

/-- pages/2_instructor.py enroll_student (lines 109-133), run against a model
of the remote roster store (a list of (courseId, email) enrollments; the
students().list call with a userId filter returns the matching entries, and
students().create appends one).  Returns the result dict, the roster after
the call, and the number of students().create calls issued. -/
def enroll_student (roster : List (String × String)) (course_id student_email : String) :
    EnrollResult × List (String × String) × Nat :=
  let existing := roster.filter fun p => p.1 = course_id ∧ p.2 = student_email
  if existing ≠ [] then
    (.warning "Student already enrolled", roster, 0)
  else
    (.success ("Student " ++ student_email ++ " enrolled successfully"),
     roster ++ [(course_id, student_email)], 1)

/-- The course dict pages/2_instructor.py create_course (lines 34-45) sends
as the body of courses().create. -/
structure CourseBody where
  name : String
  «section» : String
  descriptionHeading : String
  description : String
  room : String
  ownerId : String
  courseState : String
deriving DecidableEq, Repr

/-- Model of the remote course store: the courses the identity teaches, as
(id, body) pairs, plus a counter from which the remote mints fresh ids. -/
structure ClassroomState where
  courses : List (String × CourseBody)
  nextId : Nat
deriving DecidableEq, Repr

/-- Model of the remote courses().create call: assigns a fresh opaque id and
stores the body. -/
def coursesCreate (st : ClassroomState) (body : CourseBody) : ClassroomState × String :=
  let id := "course-" ++ toString st.nextId
  ({ courses := st.courses ++ [(id, body)], nextId := st.nextId + 1 }, id)

/-- pages/2_instructor.py create_course (lines 34-45): builds the course dict
from the four form fields, with descriptionHeading derived from the title,
ownerId me and courseState PROVISIONED, and issues a single courses().create
call.  Returns the remote state after the call, the id of the created course,
and the list of create-call bodies issued. -/
def create_course (st : ClassroomState) (course_title course_section description room : String) :
    ClassroomState × String × List CourseBody :=
  let course : CourseBody :=
    { name := course_title
      «section» := course_section
      descriptionHeading := "Welcome to " ++ course_title
      description := description
      room := room
      ownerId := "me"
      courseState := "PROVISIONED" }
  let r := coursesCreate st course
  (r.1, r.2, [course])

/-- pages/2_instructor.py list_courses (lines 29-32): re-fetches the course
list (every course this model stores is owned by me). -/
def list_courses (st : ClassroomState) : List (String × CourseBody) :=
  st.courses

/-- The fields of a studentSubmissions entry the student page reads. -/
structure Submission where
  state : Option String
  assignedGrade : Option Nat
deriving DecidableEq, Repr

/-- The empty dict the failure paths of get_assignment_submission return. -/
def emptySubmission : Submission :=
  { state := none, assignedGrade := none }

/-- The shape of the studentSubmissions().list response: the key may be
absent from the response dict. -/
structure SubmResponse where
  studentSubmissions : Option (List Submission)
deriving DecidableEq, Repr

/-- pages/3_student.py get_assignment_submission (lines 50-60): takes the
first element of the studentSubmissions list, defaulting to a singleton empty
dict when the key is absent; every exception — a failing remote call as well
as the IndexError raised by indexing an empty list — is caught and yields the
empty dict.  `fetch` is the outcome of the remote call for the given course
and assignment. -/
def get_assignment_submission (course_id assignment_id : String)
    (fetch : Except String SubmResponse) : Submission :=
  match fetch with
  | .error _ => emptySubmission
  | .ok resp =>
    match resp.studentSubmissions.getD [emptySubmission] with
    | [] => emptySubmission
    | s :: _ => s

/-- The driveFile variant of a material, as built by
pages/2_instructor.py create_drive_file_material (lines 176-186). -/
structure DriveFileRef where
  id : String
  title : String
  shareMode : String
deriving DecidableEq, Repr

/-- A material slot: exactly one of a Drive file reference or an external
link (pages/2_instructor.py lines 176-195). -/
inductive Material
  | driveFile (f : DriveFileRef)
  | link (url title : String)
deriving DecidableEq, Repr

/-- pages/2_instructor.py create_drive_file_material (lines 176-186). -/
def create_drive_file_material (drive_file_id : String) : Material :=
  .driveFile { id := drive_file_id, title := "Drive File", shareMode := "VIEW" }

/-- pages/2_instructor.py create_link_material (lines 188-195). -/
def create_link_material (url title : String) : Material :=
  .link url title

/-- The due date picked in the assignment form (st.date_input: a date, with
no time component). -/
structure DueDate where
  year : Nat
  month : Nat
  day : Nat
deriving DecidableEq, Repr

/-- The dueTime dict of a coursework body. -/
structure DueTime where
  hours : Nat
  minutes : Nat
deriving DecidableEq, Repr

/-- The coursework dict pages/2_instructor.py create_coursework (lines
138-162) sends as the body of courseWork().create. -/
structure CourseworkBody where
  title : String
  description : String
  workType : String
  state : String
  dueDate : DueDate
  dueTime : DueTime
  materials : Option (List Material)
deriving DecidableEq, Repr

/-- pages/2_instructor.py create_coursework (lines 138-162): the body built
from the form fields; workType ASSIGNMENT, state PUBLISHED and dueTime 23:59
are hard-coded, the dueDate comes from the picked date, and materials are
attached only when some were provided. -/
def create_coursework_body (title description : String) (due_date : DueDate)
    (materials : Option (List Material)) : CourseworkBody :=
  { title := title
    description := description
    workType := "ASSIGNMENT"
    state := "PUBLISHED"
    dueDate := due_date
    dueTime := { hours := 23, minutes := 59 }
    materials := materials }

/-- A state whose session carries an active course but whose persisted
credentials have gone invalid, about to rerun the instructor page. -/
def c5State : AppState :=
  { tokenFile := some { data := "tok", valid := false }
    session := { user_role := some "student", current_course := some "course-7",
                 show_create_course := false }
    page := Page.instructor }

/-- An authenticated state on the login page with no role chosen yet. -/
def c6State : AppState :=
  { tokenFile := some { data := "tok", valid := true }
    session := Session.empty
    page := Page.login }

/-- The state c6State moves to when the student role button is clicked. -/
def c6StateAfter : AppState :=
  { tokenFile := some { data := "tok", valid := true }
    session := { user_role := some "student", current_course := none,
                 show_create_course := false }
    page := Page.login }

/-- An authenticated login-page state with a role set, where the sign-out
button is visible. -/
def c8State : AppState :=
  { tokenFile := some { data := "tok", valid := true }
    session := { user_role := some "instructor", current_course := none,
                 show_create_course := false }
    page := Page.login }

/-- The state right after a sign-out from c8State. -/
def c8After : AppState :=
  { tokenFile := none
    session := Session.empty
    page := Page.login }

/-- Helper lemmas about the page scripts. -/

theorem dashboard_entry_session (s : AppState) (v : View) :
    (dashboard_entry s v).1.session = s.session := by
  unfold dashboard_entry
  cases s.tokenFile with
  | none => rfl
  | some c => cases hv : c.valid <;> simp [hv]

theorem runPage_session (s : AppState) : (runPage s).1.session = s.session := by
  cases hp : s.page <;> simp [runPage, hp, dashboard_entry_session]

theorem runPage_id_of_tokenFile_none (s : AppState) (h : s.tokenFile = none) :
    (runPage s).1 = s := by
  cases hp : s.page <;> simp [runPage, hp, dashboard_entry, h]

theorem dashboard_entry_view (s : AppState) (v : View) :
    (dashboard_entry s v).2 = v ∨ (dashboard_entry s v).2 = View.errorStop := by
  unfold dashboard_entry
  cases s.tokenFile with
  | none => simp
  | some c => cases hv : c.valid <;> simp [hv]

theorem dashboard_entry_failure (s : AppState) (v : View)
    (hbad : s.tokenFile = none ∨ ∃ c, s.tokenFile = some c ∧ c.valid = false) :
    dashboard_entry s v = ({ s with tokenFile := none }, View.errorStop) := by
  obtain ⟨tf, ses, pg⟩ := s
  rcases hbad with hb | ⟨c, hb, hv⟩ <;> simp_all [dashboard_entry]

/-- C2 (confirmed): submission status in the Student View is a pure function
of the fetched submission state, the due timestamp and the current time:
TURNED_IN gives Submitted regardless of time, otherwise past-due gives Late
and otherwise Pending. -/
theorem C2_submission_status_cases (state : Option String) (due now : Int) :
    (state = some "TURNED_IN" → submission_status state due now = SubmissionStatus.submitted) ∧
    (state ≠ some "TURNED_IN" → due < now →
      submission_status state due now = SubmissionStatus.late) ∧
    (state ≠ some "TURNED_IN" → now ≤ due →
      submission_status state due now = SubmissionStatus.pending) := by
  refine ⟨fun h => ?_, fun h h2 => ?_, fun h h2 => ?_⟩
  · unfold submission_status
    rw [if_pos h]
  · unfold submission_status
    rw [if_neg h, if_pos h2]
  · unfold submission_status
    rw [if_neg h, if_neg (not_lt.mpr h2)]

/-- Witness for C2: a turned-in submission is Submitted even before the due
time, a missing submission past due is Late, and one at the due instant is
Pending. -/
theorem C2_submission_status_witness :
    submission_status (some "TURNED_IN") 100 0 = SubmissionStatus.submitted ∧
    submission_status (some "CREATED") 100 200 = SubmissionStatus.late ∧
    submission_status none 100 100 = SubmissionStatus.pending :=
  ⟨(C2_submission_status_cases (some "TURNED_IN") 100 0).1 rfl,
   (C2_submission_status_cases (some "CREATED") 100 200).2.1 (by decide) (by decide),
   (C2_submission_status_cases none 100 100).2.2 (by decide) (by decide)⟩

/-- C3 (confirmed): enrolling a participant already on the course roster
returns the non-fatal warning dict and issues no students().create call and
leaves the roster unchanged; enrolling a participant not on the roster issues
exactly one create call, so a second identical enrollment yields the warning,
no duplicate roster entry and no hard error. -/
theorem C3_enroll_duplicate_check (roster : List (String × String)) (cid email : String) :
    ((cid, email) ∈ roster →
      enroll_student roster cid email =
        (EnrollResult.warning "Student already enrolled", roster, 0)) ∧
    ((cid, email) ∉ roster →
      (enroll_student roster cid email).1 =
        EnrollResult.success ("Student " ++ email ++ " enrolled successfully") ∧
      (enroll_student roster cid email).2.2 = 1 ∧
      (enroll_student roster cid email).2.1 = roster ++ [(cid, email)] ∧
      enroll_student (enroll_student roster cid email).2.1 cid email =
        (EnrollResult.warning "Student already enrolled", roster ++ [(cid, email)], 0)) := by
  constructor
  · intro h
    simp [enroll_student, h]
  · intro h
    simp [enroll_student, h]

/-- Witness for C3: enrolling an email already on the roster warns without a
create call; enrolling into an empty roster issues one create call. -/
theorem C3_enroll_witness :
    enroll_student [("c-1", "ada at school")] "c-1" "ada at school" =
      (EnrollResult.warning "Student already enrolled", [("c-1", "ada at school")], 0) ∧
    (enroll_student [] "c-1" "ada at school").2.2 = 1 :=
  ⟨(C3_enroll_duplicate_check [("c-1", "ada at school")] "c-1" "ada at school").1 (by simp),
   ((C3_enroll_duplicate_check [] "c-1" "ada at school").2 (by simp)).2.1⟩

/-- C7 (confirmed): submitting Create Course with title Algorithms 101,
section Fall and empty description and room issues exactly one create call
whose body carries those four fields plus the fixed PROVISIONED state, and
the re-fetched course list contains the new id. -/
theorem C7_create_course_scenario (st : ClassroomState) :
    (create_course st "Algorithms 101" "Fall" "" "").2.2 =
      [{ name := "Algorithms 101", «section» := "Fall",
         descriptionHeading := "Welcome to Algorithms 101", description := "", room := "",
         ownerId := "me", courseState := "PROVISIONED" }] ∧
    (create_course st "Algorithms 101" "Fall" "" "").2.1 ∈
      (list_courses (create_course st "Algorithms 101" "Fall" "" "").1).map Prod.fst := by
  constructor
  · rfl
  · simp [create_course, coursesCreate, list_courses]

/-- C9 (confirmed): fetching a submission is total at the view boundary: a
failing remote call, an absent studentSubmissions key and an empty
studentSubmissions list all yield the empty dict, which the status
classification never counts as Submitted. -/
theorem C9_submission_fetch_total (course_id assignment_id e : String) (due now : Int) :
    get_assignment_submission course_id assignment_id (Except.error e) = emptySubmission ∧
    get_assignment_submission course_id assignment_id
      (Except.ok { studentSubmissions := none }) = emptySubmission ∧
    get_assignment_submission course_id assignment_id
      (Except.ok { studentSubmissions := some [] }) = emptySubmission ∧
    submission_status emptySubmission.state due now ≠ SubmissionStatus.submitted := by
  refine ⟨rfl, rfl, rfl, ?_⟩
  unfold submission_status emptySubmission
  simp only [reduceCtorEq, if_false]
  split <;> simp

/-- Witness for C9 at concrete inputs. -/
theorem C9_submission_fetch_witness :
    get_assignment_submission "c-1" "a-1" (Except.error "HttpError 404") = emptySubmission ∧
    get_assignment_submission "c-1" "a-1"
      (Except.ok { studentSubmissions := none }) = emptySubmission ∧
    get_assignment_submission "c-1" "a-1"
      (Except.ok { studentSubmissions := some [] }) = emptySubmission ∧
    submission_status emptySubmission.state 100 200 ≠ SubmissionStatus.submitted :=
  C9_submission_fetch_total "c-1" "a-1" "HttpError 404" 100 200

/-- C10 (confirmed): every coursework body sent by the Instructor View has
dueTime 23:59 and state PUBLISHED, and neither depends on any form input. -/
theorem C10_coursework_fixed_time_and_state (title description : String) (due : DueDate)
    (materials : Option (List Material)) (title2 description2 : String) (due2 : DueDate)
    (materials2 : Option (List Material)) :
    (create_coursework_body title description due materials).dueTime =
      { hours := 23, minutes := 59 } ∧
    (create_coursework_body title description due materials).state = "PUBLISHED" ∧
    (create_coursework_body title description due materials).dueTime =
      (create_coursework_body title2 description2 due2 materials2).dueTime ∧
    (create_coursework_body title description due materials).state =
      (create_coursework_body title2 description2 due2 materials2).state :=
  ⟨rfl, rfl, rfl, rfl⟩

/-- C1 (corrected, counterexample): a reachable state renders the Instructor
View while the session role is still unset: after a successful code exchange
the instructor page can be opened directly, and its entry check looks only at
the credential. -/
theorem C1_counterexample :
    Reachable { tokenFile := some { data := "tok", valid := true },
                session := Session.empty, page := Page.instructor } ∧
    (runPage { tokenFile := some { data := "tok", valid := true },
               session := Session.empty, page := Page.instructor }).2 = View.instructorView ∧
    ({ tokenFile := some { data := "tok", valid := true },
       session := Session.empty, page := Page.instructor } : AppState).session.user_role =
      none := by
  refine ⟨?_, rfl, rfl⟩
  exact Reachable.next (Event.openPage Page.instructor)
    (Reachable.next (Event.submitCode (Except.ok { data := "tok", valid := true }))
      Reachable.base rfl) rfl

/-- C1 (corrected, amended): reaching the Instructor or Student View does
imply the persisted credential was present and valid at view entry; the role
part of the original claim fails, see the counterexample. -/
theorem C1_entry_requires_valid_credential (s : AppState)
    (h : (runPage s).2 = View.instructorView ∨ (runPage s).2 = View.studentView) :
    ∃ c, s.tokenFile = some c ∧ c.valid = true := by
  rcases hs : s.tokenFile with _ | c
  · exfalso
    rcases h with h | h <;> cases hp : s.page <;>
      simp [runPage, hp, dashboard_entry, hs, login_render, is_authenticated] at h
  · refine ⟨c, rfl, ?_⟩
    cases hcv : c.valid
    · exfalso
      rcases h with h | h <;> cases hp : s.page <;>
        simp [runPage, hp, dashboard_entry, hs, hcv, login_render, is_authenticated] at h
    · rfl

/-- Witness for the amended C1 at the counterexample state. -/
theorem C1_entry_witness :
    ∃ c, ({ tokenFile := some { data := "tok", valid := true },
            session := Session.empty, page := Page.instructor } : AppState).tokenFile =
        some c ∧ c.valid = true :=
  C1_entry_requires_valid_credential
    { tokenFile := some { data := "tok", valid := true },
      session := Session.empty, page := Page.instructor } (Or.inl rfl)

/-- C4 (confirmed): while the gate awaits a code, a successful exchange
stores exactly the newly obtained credential, overwriting whatever was
persisted before with no merging; a failed exchange leaves the whole state,
and in particular the persisted record, unchanged, so the gate still awaits a
code. -/
theorem C4_code_exchange (s : AppState) (c : Cred) (e : String)
    (hv : (runPage s).2 = View.loginUnauthenticated) :
    step s (Event.submitCode (Except.ok c)) = some { s with tokenFile := some c } ∧
    step s (Event.submitCode (Except.error e)) = some s := by
  have hpage : s.page = Page.login := by
    cases hp : s.page
    · rfl
    · exfalso
      have h2 : (dashboard_entry s View.instructorView).2 = View.loginUnauthenticated := by
        rw [← hv]; simp [runPage, hp]
      rcases dashboard_entry_view s View.instructorView with h | h <;> rw [h] at h2 <;>
        simp at h2
    · exfalso
      have h2 : (dashboard_entry s View.studentView).2 = View.loginUnauthenticated := by
        rw [← hv]; simp [runPage, hp]
      rcases dashboard_entry_view s View.studentView with h | h <;> rw [h] at h2 <;>
        simp at h2
  have hlr : login_render s = View.loginUnauthenticated := by
    rw [← hv]; simp [runPage, hpage]
  constructor
  · simp [step, hv, runPage, hpage, hlr]
  · simp [step, hv, runPage, hpage, hlr]

/-- Witness for C4: from a fresh unauthenticated state, a successful exchange
persists the new credential and a failed one changes nothing. -/
theorem C4_code_exchange_witness :
    step { tokenFile := none, session := Session.empty, page := Page.login }
      (Event.submitCode (Except.ok { data := "tok", valid := true })) =
      some { tokenFile := some { data := "tok", valid := true },
             session := Session.empty, page := Page.login } ∧
    step { tokenFile := none, session := Session.empty, page := Page.login }
      (Event.submitCode (Except.error "invalid grant")) =
      some { tokenFile := none, session := Session.empty, page := Page.login } :=
  C4_code_exchange { tokenFile := none, session := Session.empty, page := Page.login }
    { data := "tok", valid := true } "invalid grant" rfl

/-- C5 (corrected, counterexample): entering the instructor page with an
invalid persisted credential blocks the view and deletes the credential
record, but the session keeps its local state (the active course survives),
so the session is not discarded. -/
theorem C5_counterexample :
    (runPage c5State).2 = View.errorStop ∧
    (runPage c5State).1.tokenFile = none ∧
    (runPage c5State).1.session.current_course = some "course-7" ∧
    (runPage c5State).1.session ≠ Session.empty := by
  refine ⟨rfl, rfl, rfl, ?_⟩
  simp [c5State, runPage, dashboard_entry, Session.empty]

/-- C5 (corrected, amended): on entry with a missing or invalid credential,
each downstream view stops with an error, the persisted credential record
ends up absent — so the gate is back to Unauthenticated — but the session
local state is retained, not discarded. -/
theorem C5_entry_reauth (s : AppState)
    (hpage : s.page = Page.instructor ∨ s.page = Page.student)
    (hbad : s.tokenFile = none ∨ ∃ c, s.tokenFile = some c ∧ c.valid = false) :
    (runPage s).2 = View.errorStop ∧
    (runPage s).1.tokenFile = none ∧
    (runPage s).1.session = s.session ∧
    is_authenticated ((runPage s).1).tokenFile = false := by
  have h : runPage s = ({ s with tokenFile := none }, View.errorStop) := by
    rcases hpage with hp | hp <;> simp [runPage, hp, dashboard_entry_failure s _ hbad]
  rw [h]
  exact ⟨rfl, rfl, rfl, rfl⟩

/-- Witness for the amended C5 at the counterexample state. -/
theorem C5_entry_reauth_witness :
    (runPage c5State).2 = View.errorStop ∧
    (runPage c5State).1.tokenFile = none ∧
    (runPage c5State).1.session = c5State.session ∧
    is_authenticated ((runPage c5State).1).tokenFile = false :=
  C5_entry_reauth c5State (Or.inl rfl)
    (Or.inr ⟨{ data := "tok", valid := false }, rfl, rfl⟩)

/-- C6 (corrected, counterexample): on a non-empty teacher course list the
role heuristic returns the string teacher, not the string instructor claimed
by the spec (the session role enum elsewhere uses instructor). -/
theorem C6_counterexample :
    detect_user_role (Except.ok ["course-1"]) = "teacher" ∧
    detect_user_role (Except.ok ["course-1"]) ≠ "instructor" := by
  exact ⟨rfl, by decide⟩

/-- C6 (corrected, amended): the heuristic returns teacher when the identity
teaches at least one course and student otherwise (also on a failed query);
the guess is advisory only: the session role becomes set only through the two
explicit role buttons, and with no role set the login page never reaches the
unblocked authenticated view. -/
theorem C6_role_guess_and_confirmation (courses : List String) (e : String)
    (s s' : AppState) (ev : Event) :
    (courses ≠ [] → detect_user_role (Except.ok courses) = "teacher") ∧
    detect_user_role (Except.ok []) = "student" ∧
    detect_user_role (Except.error e) = "student" ∧
    (step s ev = some s' → s.session.user_role = none → s'.session.user_role ≠ none →
      ev = Event.chooseStudent ∨ ev = Event.chooseInstructor) ∧
    (s.session.user_role = none → (runPage s).2 ≠ View.loginAuthenticated) := by
  refine ⟨fun h => ?_, rfl, rfl, ?_, ?_⟩
  · cases courses with
    | nil => exact absurd rfl h
    | cons a l => rfl
  · intro hstep hnone hset
    cases ev with
    | submitCode r =>
      exfalso
      simp only [step] at hstep
      split at hstep
      · cases r with
        | ok c =>
          injection hstep with hstep
          apply hset
          rw [← hstep, runPage_session]
          rw [show ({ (runPage s).1 with tokenFile := some c } : AppState).session =
            (runPage s).1.session from rfl]
          rw [runPage_session]
          exact hnone
        | error e2 =>
          injection hstep with hstep
          apply hset
          rw [← hstep, runPage_session]
          exact hnone
      · exact Option.noConfusion hstep
    | chooseStudent => exact Or.inl rfl
    | chooseInstructor => exact Or.inr rfl
    | goDashboard =>
      exfalso
      simp only [step] at hstep
      split at hstep
      · have hrole : (runPage s).1.session.user_role = none := by
          rw [runPage_session]; exact hnone
        rw [hrole] at hstep
        exact Option.noConfusion hstep
      · exact Option.noConfusion hstep
    | signOut =>
      exfalso
      simp only [step] at hstep
      split at hstep
      · injection hstep with hstep
        apply hset
        rw [← hstep, runPage_session]
        rfl
      · exact Option.noConfusion hstep
    | openPage p =>
      exfalso
      simp only [step] at hstep
      injection hstep with hstep
      apply hset
      rw [← hstep, runPage_session]
      rw [show ({ (runPage s).1 with page := p } : AppState).session =
        (runPage s).1.session from rfl]
      rw [runPage_session]
      exact hnone
  · intro hnone
    cases hp : s.page
    · have hne : login_render s ≠ View.loginAuthenticated := by
        unfold login_render
        rw [hnone]
        cases his : is_authenticated s.tokenFile <;> simp [his]
      simpa [runPage, hp] using hne
    · rcases dashboard_entry_view s View.instructorView with h | h <;>
        simp [runPage, hp, h]
    · rcases dashboard_entry_view s View.studentView with h | h <;>
        simp [runPage, hp, h]

/-- Witness for the amended C6: one taught course gives the teacher guess;
the student button is one of the two role-setting events; the role selector
state does not render the authenticated view. -/
theorem C6_role_guess_witness :
    detect_user_role (Except.ok ["course-1"]) = "teacher" ∧
    (Event.chooseStudent = Event.chooseStudent ∨
      Event.chooseStudent = Event.chooseInstructor) ∧
    (runPage c6State).2 ≠ View.loginAuthenticated :=
  ⟨(C6_role_guess_and_confirmation ["course-1"] "network down" c6State c6StateAfter
      Event.chooseStudent).1 (by simp),
   (C6_role_guess_and_confirmation ["course-1"] "network down" c6State c6StateAfter
      Event.chooseStudent).2.2.2.1 rfl rfl (by simp [c6StateAfter]),
   (C6_role_guess_and_confirmation ["course-1"] "network down" c6State c6StateAfter
      Event.chooseStudent).2.2.2.2 rfl⟩

/-- C8 (confirmed): whenever a sign-out fires, the resulting state has no
persisted credential and a fully cleared session, and the next run of the
login page lands in the unauthenticated view. -/
theorem C8_sign_out (s s' : AppState) (h : step s Event.signOut = some s') :
    s'.tokenFile = none ∧ s'.session = Session.empty ∧
    is_authenticated s'.tokenFile = false ∧
    login_render { tokenFile := s'.tokenFile, session := s'.session, page := Page.login } =
      View.loginUnauthenticated := by
  simp only [step] at h
  split at h
  · injection h with h
    have hx := runPage_id_of_tokenFile_none
      { (runPage s).1 with tokenFile := none, session := Session.empty } rfl
    rw [← h, hx]
    exact ⟨rfl, rfl, rfl, rfl⟩
  · exact Option.noConfusion h

/-- Witness for C8: signing out of the authenticated login view deletes the
credential, clears the session and the next render is unauthenticated. -/
theorem C8_sign_out_witness :
    c8After.tokenFile = none ∧ c8After.session = Session.empty ∧
    is_authenticated c8After.tokenFile = false ∧
    login_render { tokenFile := c8After.tokenFile, session := c8After.session, page := Page.login } =
      View.loginUnauthenticated :=
  C8_sign_out c8State c8After rfl
